import Mathlib

/-!
Verification of the Installation Orchestrator front-end of the
tauri-vue-docker-mysql-boilerplate repository.

The TypeScript/Vue sources are embedded shallowly:
- stages cross the Tauri event boundary as plain strings, so stages are
  modelled as `String`;
- each Vue component's reactive refs become a Lean structure, and each
  event listener / handler becomes a pure state-transformer;
- `invoke` calls to the Rust backend are modelled by a boolean parameter
  telling whether the call succeeded (resolved) or threw (rejected), and
  the arguments passed to `invoke` are recorded explicitly so that
  information flow into the backend can be stated;
- the Rust backend itself is not part of the source tree (only its
  Cargo.toml is); where a claim depends on it, the relevant operation is
  modelled from the specification and marked as such.
-/

/-! ### JavaScript primitives -/

/-- JavaScript `Math.round`: round half toward positive infinity. -/
def jsRound (q : Rat) : Int := Int.floor (q + 1/2)

/-- JavaScript `Array.prototype.indexOf` on an array of strings:
first index of the element, `-1` when absent. -/
def jsIndexOf : List String → String → Int
  | [], _ => -1
  | a :: t, s =>
    if a = s then 0
    else
      let r := jsIndexOf t s
      if r = -1 then -1 else r + 1

/-- JavaScript `String.prototype.trim`: strip leading and trailing
whitespace (modelled on the character list with `Char.isWhitespace`). -/
def jsTrim (s : String) : String :=
  String.mk (((s.data.dropWhile Char.isWhitespace).reverse.dropWhile Char.isWhitespace).reverse)

/-- The two `*Failed` tags of the installation stage vocabulary
(spec §3: any stage may move to its corresponding `*Failed` terminal). -/
def isFailedStage (stage : String) : Bool :=
  stage = "DockerInstallFailed" || stage = "MySQLSetupFailed"

/-! ### WindowsSetupModal (src/unnamed/part_000, `WindowsSetupModal.vue`) -/

namespace WindowsSetupModal

/-- The ten-entry progress list of the Windows modal's `calculateProgress`. -/
def stages : List String :=
  ["NotStarted", "SystemCheckInProgress", "SystemCheckComplete", "CheckingDocker",
   "DockerNotInstalled", "DockerInstalling", "DockerInstalled", "StartingMySQLContainer",
   "MySQLContainerStarted", "SetupComplete"]

/-- `Math.round((index / (stages.length - 1)) * 100)` with
`index = stages.indexOf(stage)`. -/
def calculateProgress (stage : String) : Int :=
  jsRound ((jsIndexOf stages stage : Rat) / ((stages.length : Rat) - 1) * 100)

/-- The reactive refs of the Windows modal that the claims mention. -/
structure ModalState where
  currentStage : String
  setupProgress : Int
  errorMessage : String
  dockerLogs : List String
deriving DecidableEq

/-- Tauri events the Windows modal listens to in `onMounted`. -/
inductive ModalEvent where
  | installationStage (stage : String)
  | dockerInstallLog (msg : String)
deriving DecidableEq

/-- The two `listen` callbacks registered in `onMounted`. -/
def handleEvent (s : ModalState) (e : ModalEvent) : ModalState :=
  match e with
  | .installationStage st =>
    { s with currentStage := st, setupProgress := calculateProgress st }
  | .dockerInstallLog m =>
    { s with dockerLogs := s.dockerLogs ++ [m] }

def processEvents (s : ModalState) (evts : List ModalEvent) : ModalState :=
  evts.foldl handleEvent s

/-- `startSetup`: after `checkSystemRequirements` returned
`isSystemCompatible`, set stage `CheckingDocker` and invoke
`start_system_setup`; the `catch` branch sets the error message and
`currentStage = 'DockerInstallFailed'`. `invokeOk` tells whether the
invoke resolved; `err` is the thrown error rendered as a string. -/
def startSetup (s : ModalState) (isSystemCompatible : Bool) (invokeOk : Bool)
    (err : String) : ModalState :=
  if isSystemCompatible then
    let s1 := { s with currentStage := "CheckingDocker",
                       setupProgress := calculateProgress "CheckingDocker" }
    if invokeOk then s1
    else { s1 with errorMessage := "Setup failed: " ++ err,
                   currentStage := "DockerInstallFailed" }
  else s

end WindowsSetupModal

/-! ### UbuntuSetupModal (src/src/components/UbuntuSetupModal.vue) -/

namespace UbuntuSetupModal

/-- The ten-entry progress list of the Ubuntu modal's `calculateProgress`. -/
def stages : List String :=
  ["NotStarted", "AwaitingSudoPassword", "CheckingDocker", "DockerNotInstalled",
   "DockerInstalling", "DockerInstalled", "PreparingMySQLContainer",
   "StartingMySQLContainer", "MySQLContainerStarted", "SetupComplete"]

/-- `Math.round((index / (stages.length - 1)) * 100)` with
`index = stages.indexOf(stage)`. -/
def calculateProgress (stage : String) : Int :=
  jsRound ((jsIndexOf stages stage : Rat) / ((stages.length : Rat) - 1) * 100)

/-- The reactive refs of the Ubuntu modal that the claims mention. -/
structure ModalState where
  currentStage : String
  setupProgress : Int
  errorMessage : String
  password : String
  currentRequestId : String
  mysqlContainerLogs : List String
  dockerInstallLogs : List String
deriving DecidableEq

def initialState : ModalState :=
  { currentStage := "NotStarted", setupProgress := 0, errorMessage := "",
    password := "", currentRequestId := "", mysqlContainerLogs := [],
    dockerInstallLogs := [] }

/-- State right after `onMounted` ran: it sets
`currentStage = 'AwaitingInstallationStart'`. -/
def mountedState : ModalState :=
  { initialState with currentStage := "AwaitingInstallationStart" }

/-- The `watch(currentStage, ...)` effect: when `currentStage` changed,
recompute `setupProgress` and, when the new stage is
`DockerInstallFailed`, overwrite the error message. `old` is the state
before the mutation, `s` the state after it. -/
def applyStageWatch (old s : ModalState) : ModalState :=
  if s.currentStage ≠ old.currentStage then
    let s1 := { s with setupProgress := calculateProgress s.currentStage }
    if s1.currentStage = "DockerInstallFailed" then
      { s1 with errorMessage := "Docker installation failed. Check logs below." }
    else s1
  else s

/-- Tauri events the Ubuntu modal listens to in `onMounted`.  The
`sudo-password-request` payload may lack a `request_id` field. -/
inductive ModalEvent where
  | sudoPasswordRequest (requestId : Option String)
  | installationStage (stage : String)
  | mysqlContainerLog (msg : String)
  | dockerInstallLog (msg : String)
deriving DecidableEq

/-- The four `listen` callbacks registered in `onMounted`, each followed
by the `watch(currentStage, ...)` effect where the stage changed.
(The `emit('update:modelValue', false)` on `SetupComplete` targets the
hosting shell, not this state, and is modelled there.) -/
def handleEvent (s : ModalState) (e : ModalEvent) : ModalState :=
  match e with
  | .sudoPasswordRequest (some id) =>
    applyStageWatch s
      { s with currentRequestId := id, currentStage := "AwaitingSudoPassword" }
  | .sudoPasswordRequest none => s
  | .installationStage st =>
    let s1 := { s with currentStage := st, setupProgress := calculateProgress st }
    let s2 :=
      if st = "DockerInstallFailed" || st = "MySQLSetupFailed" then
        { s1 with errorMessage := "Setup failed at stage: " ++ st }
      else s1
    applyStageWatch s s2
  | .mysqlContainerLog m =>
    { s with mysqlContainerLogs := s.mysqlContainerLogs ++ [m] }
  | .dockerInstallLog m =>
    { s with dockerInstallLogs := s.dockerInstallLogs ++ [m] }

def processEvents (s : ModalState) (evts : List ModalEvent) : ModalState :=
  evts.foldl handleEvent s

/-- `startInstallation`: set stage `CheckingDocker`, invoke
`start_ubuntu_setup`; the `catch` branch only sets
`errorMessage = 'Failed to start installation'`. -/
def startInstallation (s : ModalState) (invokeOk : Bool) : ModalState :=
  let s1 := applyStageWatch s { s with currentStage := "CheckingDocker" }
  if invokeOk then s1
  else { s1 with errorMessage := "Failed to start installation" }

/-- Result of a `handlePasswordSubmit` run: the new component state and
the list of backend invocations performed, each recorded as
(command, requestId argument, password argument). -/
structure SubmitOutcome where
  state : ModalState
  invocations : List (String × String × String)
deriving DecidableEq

/-- `handlePasswordSubmit`: guard on `password.value.trim()` truthiness,
then on `props.currentSudoPasswordRequestId` truthiness, then invoke
`respond_to_sudo_password_request`; on success set stage
`CheckingDocker` and clear the error message, on rejection set a fixed
error message. -/
def handlePasswordSubmit (s : ModalState) (propsRequestId : String)
    (invokeOk : Bool) : SubmitOutcome :=
  if jsTrim s.password = "" then
    { state := { s with errorMessage := "Please enter a password" }, invocations := [] }
  else if propsRequestId = "" then
    { state := { s with errorMessage := "No active password request. Please retry." },
      invocations := [] }
  else if invokeOk then
    { state := applyStageWatch s
        { s with currentStage := "CheckingDocker", errorMessage := "" },
      invocations := [("respond_to_sudo_password_request", propsRequestId, s.password)] }
  else
    { state := { s with errorMessage := "Failed to submit password. Please try again." },
      invocations := [("respond_to_sudo_password_request", propsRequestId, s.password)] }

/-- Whether some `installation-stage` event of the list carries the
payload `NotStarted`. -/
def hasNotStartedPayload (evts : List ModalEvent) : Bool :=
  evts.any fun e =>
    match e with
    | .installationStage st => st = "NotStarted"
    | _ => false

/-- The secret-independent observables of a `handlePasswordSubmit` run:
error message, current stage, both log arrays, and the invocations with
the password argument removed. -/
def submitObservables (o : SubmitOutcome) :
    String × String × List String × List String × List (String × String) :=
  (o.state.errorMessage, o.state.currentStage, o.state.mysqlContainerLogs,
   o.state.dockerInstallLogs, o.invocations.map fun inv => (inv.1, inv.2.1))

end UbuntuSetupModal

/-! ### Earlier UbuntuSetupModal variant (src/unnamed/part_001) -/

namespace LegacyUbuntuSetupModal

/-- The nine-entry progress list of the earlier Ubuntu modal variant. -/
def stages : List String :=
  ["NotStarted", "CheckingDocker", "DockerNotInstalled", "DockerInstalling",
   "DockerInstalled", "PreparingMySQLContainer", "StartingMySQLContainer",
   "MySQLContainerStarted", "SetupComplete"]

/-- `index > 0 ? Math.min(100, (index / (stages.length - 1)) * 100) : 0`
with `index = stages.indexOf(stage)`; note: unrounded. -/
def calculateProgress (stage : String) : Rat :=
  let index := jsIndexOf stages stage
  if index > 0 then min 100 ((index : Rat) / ((stages.length : Rat) - 1) * 100) else 0

end LegacyUbuntuSetupModal

/-! ### App shell (src/unnamed/part_002, `App.vue` with `initializeSystem`) -/

namespace App

/-- The `setupState` ref of the app shell, plus the resolved OS type. -/
structure AppState where
  isSetupRequired : Bool
  currentSudoPasswordRequestId : String
  osType : Option String
deriving DecidableEq

/-- Events reaching the app shell after initialization: the two Tauri
events it listens to, and the modal's open-state callback. -/
inductive AppEvent where
  | sudoPasswordRequest (requestId : Option String)
  | installationStage (stage : String)
  | modalOpenChange (isOpen : Bool)
deriving DecidableEq

def initialState : AppState :=
  { isSetupRequired := false, currentSudoPasswordRequestId := "", osType := none }

/-- `initializeSystem`: resolve the OS type; on Linux require setup (and
register the sudo-password listener); on Windows require setup only when
`is_docker_installed` returned false; otherwise leave the state alone. -/
def initSystem (osType : String) (isDockerInstalled : Bool) (s : AppState) : AppState :=
  let s1 := { s with osType := some osType }
  if osType = "Linux" then { s1 with isSetupRequired := true }
  else if osType = "Windows" then
    if isDockerInstalled then s1 else { s1 with isSetupRequired := true }
  else s1

/-- `handleSudoPasswordRequest` (registered only on the Linux path),
`handleInstallationStage` (the 5s `setTimeout` hiding the modal after
`SetupComplete` is modelled as taking effect), and
`handleModalOpenChange`. -/
def handleAppEvent (s : AppState) (e : AppEvent) : AppState :=
  match e with
  | .sudoPasswordRequest req =>
    if s.osType = some "Linux" then
      match req with
      | some id =>
        { s with currentSudoPasswordRequestId := id, isSetupRequired := true }
      | none => s
    else s
  | .installationStage st =>
    if st = "SetupComplete" then { s with isSetupRequired := false } else s
  | .modalOpenChange b => { s with isSetupRequired := b }

/-- One execution of the app shell: `onMounted` runs `initializeSystem`,
then the listeners process the incoming events in order. -/
def runApp (osType : String) (isDockerInstalled : Bool) (evts : List AppEvent) : AppState :=
  evts.foldl handleAppEvent (initSystem osType isDockerInstalled initialState)

/-- `<NotesTable v-if="!setupState.isSetupRequired" />`. -/
def notesVisible (s : AppState) : Bool := !s.isSetupRequired

/-- Whether an `installation-stage` event carrying `SetupComplete` occurs. -/
def receivedSetupComplete (evts : List AppEvent) : Bool :=
  evts.any fun e =>
    match e with
    | .installationStage st => st = "SetupComplete"
    | _ => false

/-- Whether the modal was explicitly closed (`onOpenChange(false)`). -/
def modalClosed (evts : List AppEvent) : Bool :=
  evts.any fun e =>
    match e with
    | .modalOpenChange b => !b
    | _ => false

end App

/-! ### Backend orchestrator (not under src/; modelled from the spec) -/

namespace Backend

inductive ChannelError where
  | UnknownOrStaleRequest
  | AlreadyResolved
deriving DecidableEq

inductive OrchestratorError where
  | SetupAlreadyInProgress
deriving DecidableEq

/-- Modelled from the spec: `PrivilegeRequest` of §3 —
an id, a creation timestamp and a resolved flag. -/
structure PrivilegeRequest where
  id : String
  createdAt : Nat
  resolved : Bool
deriving DecidableEq

/-- Modelled from the spec: `SetupSession` of §3 — current stage, the two
append-only logs, the last error, and zero-or-one outstanding
`PrivilegeRequest`. -/
structure SetupSession where
  stage : String
  runtimeInstallLog : List String
  containerLog : List String
  lastError : Option String
  outstanding : Option PrivilegeRequest
deriving DecidableEq

/-- Modelled from the spec: `submit_credential(request_id, secret)` of
§4.3 — fails with `UnknownOrStaleRequest` if `request_id` does not match
the current outstanding request, with `AlreadyResolved` if called twice
for the same id; otherwise marks the request resolved.  The Rust side of
`respond_to_sudo_password_request` is absent from src/. -/
def submit_credential (sess : SetupSession) (requestId : String) (_secret : String) :
    Except ChannelError Unit × SetupSession :=
  match sess.outstanding with
  | none => (.error .UnknownOrStaleRequest, sess)
  | some req =>
    if req.id ≠ requestId then (.error .UnknownOrStaleRequest, sess)
    else if req.resolved then (.error .AlreadyResolved, sess)
    else (.ok (), { sess with outstanding := some { req with resolved := true } })

/-- Modelled from the spec: the per-process orchestrator of §5, with its
at-most-one in-flight setup session. -/
structure Orchestrator where
  active : Bool
  session : SetupSession
deriving DecidableEq

/-- Modelled from the spec: `start_setup()` of §5/§6 — a second start
request while one setup is active fails with `SetupAlreadyInProgress`
and causes no state change.  The Rust side of `start_ubuntu_setup` /
`start_system_setup` is absent from src/. -/
def start_setup (o : Orchestrator) : Except OrchestratorError Unit × Orchestrator :=
  if o.active then (.error .SetupAlreadyInProgress, o)
  else (.ok (), { o with active := true })

end Backend

/-! ### Helper lemmas -/

theorem jsRound_eq_of (q : Rat) (z : Int) (h₁ : (z : Rat) ≤ q + 1/2) (h₂ : q + 1/2 < z + 1) :
    jsRound q = z := by
  unfold jsRound
  rw [Int.floor_eq_iff]
  exact ⟨h₁, by exact_mod_cast h₂⟩

theorem jsIndexOf_eq_neg_one (l : List String) (s : String) (h : s ∉ l) : jsIndexOf l s = -1 := by
  induction l with
  | nil => rfl
  | cons a t ih =>
    simp only [List.mem_cons, not_or] at h
    simp only [jsIndexOf]
    rw [if_neg (fun hh => h.1 hh.symm), ih h.2]
    simp

theorem windows_calc_checkingDocker :
    WindowsSetupModal.calculateProgress "CheckingDocker" = 33 := by
  unfold WindowsSetupModal.calculateProgress
  have h : jsIndexOf WindowsSetupModal.stages "CheckingDocker" = 3 := by decide
  rw [h]
  exact jsRound_eq_of _ _ (by norm_num [WindowsSetupModal.stages])
    (by norm_num [WindowsSetupModal.stages])

theorem ubuntu_calc_checkingDocker :
    UbuntuSetupModal.calculateProgress "CheckingDocker" = 22 := by
  unfold UbuntuSetupModal.calculateProgress
  have h : jsIndexOf UbuntuSetupModal.stages "CheckingDocker" = 2 := by decide
  rw [h]
  exact jsRound_eq_of _ _ (by norm_num [UbuntuSetupModal.stages])
    (by norm_num [UbuntuSetupModal.stages])

theorem legacy_calc_checkingDocker :
    LegacyUbuntuSetupModal.calculateProgress "CheckingDocker" = 25/2 := by
  unfold LegacyUbuntuSetupModal.calculateProgress
  have h : jsIndexOf LegacyUbuntuSetupModal.stages "CheckingDocker" = 1 := by decide
  rw [h]
  norm_num [LegacyUbuntuSetupModal.stages]

theorem legacy_calc_preparing :
    LegacyUbuntuSetupModal.calculateProgress "PreparingMySQLContainer" = 125/2 := by
  unfold LegacyUbuntuSetupModal.calculateProgress
  have h : jsIndexOf LegacyUbuntuSetupModal.stages "PreparingMySQLContainer" = 5 := by decide
  rw [h]
  norm_num [LegacyUbuntuSetupModal.stages]

theorem watch_currentStage (old s : UbuntuSetupModal.ModalState) :
    (UbuntuSetupModal.applyStageWatch old s).currentStage = s.currentStage := by
  unfold UbuntuSetupModal.applyStageWatch
  split
  · dsimp only
    split <;> rfl
  · rfl

theorem app_hidden_until (evts : List App.AppEvent) :
    ∀ s : App.AppState, s.isSetupRequired = true →
      (evts.foldl App.handleAppEvent s).isSetupRequired = false →
      App.receivedSetupComplete evts = true ∨ App.modalClosed evts = true := by
  induction evts with
  | nil =>
    intro s hs hf
    rw [List.foldl_nil] at hf
    rw [hs] at hf
    exact absurd hf (by decide)
  | cons e t ih =>
    intro s hs hf
    rw [List.foldl_cons] at hf
    by_cases hkeep : (App.handleAppEvent s e).isSetupRequired = true
    · rcases ih _ hkeep hf with h | h
      · left
        simp [App.receivedSetupComplete] at h ⊢
        exact Or.inr h
      · right
        simp [App.modalClosed] at h ⊢
        exact Or.inr h
    · cases e with
      | sudoPasswordRequest req =>
        exfalso
        apply hkeep
        cases req with
        | some id => simp [App.handleAppEvent]; split <;> simp [hs]
        | none => simp [App.handleAppEvent, hs]
      | installationStage st =>
        by_cases hst : st = "SetupComplete"
        · left; simp [App.receivedSetupComplete, hst]
        · exfalso; apply hkeep; simp [App.handleAppEvent, hst, hs]
      | modalOpenChange b =>
        cases b with
        | true => exfalso; apply hkeep; simp [App.handleAppEvent]
        | false => right; simp [App.modalClosed]

/-! ### Claims -/

/-- Claim C1 (code bug): every failure of a setup operation should
resolve to a terminal `*Failed` stage, and the Windows `startSetup`
`catch` branch indeed sets `DockerInstallFailed`; but the Ubuntu
`startInstallation` `catch` branch leaves `currentStage` at
`CheckingDocker` — not a `*Failed` stage — and only sets the error
message.  This theorem evaluates both handlers at a failing invoke. -/
theorem c1_ubuntu_start_failure_leaves_nonfailed_stage :
    (UbuntuSetupModal.startInstallation UbuntuSetupModal.mountedState false).currentStage
      = "CheckingDocker"
    ∧ isFailedStage
        (UbuntuSetupModal.startInstallation UbuntuSetupModal.mountedState false).currentStage
      = false
    ∧ (UbuntuSetupModal.startInstallation UbuntuSetupModal.mountedState false).errorMessage
      = "Failed to start installation"
    ∧ (WindowsSetupModal.startSetup
        { currentStage := "SystemCheckComplete", setupProgress := 22, errorMessage := "",
          dockerLogs := [] } true false "invoke rejected").currentStage
      = "DockerInstallFailed"
    ∧ isFailedStage "DockerInstallFailed" = true :=
  ⟨rfl, rfl, rfl, rfl, rfl⟩

/-- Claim C2: the platform variants use different progress-percentage
formulas: at the stage `CheckingDocker` the Windows modal computes 33,
the Ubuntu modal 22, and the earlier Ubuntu variant 12.5 — so the
embedded functions are not extensionally equal. -/
theorem c2_progress_formulas_not_extensionally_equal :
    ∃ stage : String,
      WindowsSetupModal.calculateProgress stage ≠ UbuntuSetupModal.calculateProgress stage
      ∧ (WindowsSetupModal.calculateProgress stage : Rat)
          ≠ LegacyUbuntuSetupModal.calculateProgress stage := by
  refine ⟨"CheckingDocker", ?_, ?_⟩
  · rw [windows_calc_checkingDocker, ubuntu_calc_checkingDocker]
    decide
  · rw [windows_calc_checkingDocker, legacy_calc_checkingDocker]
    norm_num

/-- Claim C3 counterexample: the claim that the NotesTable becomes
visible only after an `installation-stage` event carrying
`SetupComplete` fails on the Windows path where Docker is already
installed: there the shell never requires setup and the notes are
visible with no event received at all. -/
theorem c3_notes_visible_without_setupComplete_cx :
    App.notesVisible (App.runApp "Windows" true []) = true
    ∧ App.receivedSetupComplete [] = false :=
  ⟨rfl, rfl⟩

/-- Claim C3 (amended): on the Linux path — the only path on which the
shell requires setup unconditionally — the NotesTable is visible after
the event sequence only if a `SetupComplete` stage event was received or
the modal was explicitly closed; when setup was never required (Windows
with Docker installed, unsupported OS) the notes are shown without any
`SetupComplete` event. -/
theorem c3_notes_hidden_until_setupComplete_or_close
    (isDockerInstalled : Bool) (evts : List App.AppEvent)
    (h : App.notesVisible (App.runApp "Linux" isDockerInstalled evts) = true) :
    App.receivedSetupComplete evts = true ∨ App.modalClosed evts = true := by
  have hinit : (App.initSystem "Linux" isDockerInstalled App.initialState).isSetupRequired
      = true := rfl
  have hf : (evts.foldl App.handleAppEvent
      (App.initSystem "Linux" isDockerInstalled App.initialState)).isSetupRequired = false := by
    have h2 := h
    unfold App.notesVisible App.runApp at h2
    simpa using h2
  exact app_hidden_until evts _ hinit hf

/-- Claim C3 witness: the amended theorem applied to the concrete Linux
run that receives exactly one `SetupComplete` stage event. -/
theorem c3_witness :
    App.receivedSetupComplete [App.AppEvent.installationStage "SetupComplete"] = true
    ∨ App.modalClosed [App.AppEvent.installationStage "SetupComplete"] = true :=
  c3_notes_hidden_until_setupComplete_or_close true
    [App.AppEvent.installationStage "SetupComplete"] (by decide)

/-- Claim C4 counterexample: the stage listener copies the event payload
into `currentStage` unconditionally, so after the mounted modal has left
`NotStarted` (it is at `AwaitingInstallationStart`), a single
`installation-stage` event carrying `NotStarted` regresses the stage
back to `NotStarted`. -/
theorem c4_stage_regression_cx :
    UbuntuSetupModal.mountedState.currentStage ≠ "NotStarted"
    ∧ (UbuntuSetupModal.processEvents UbuntuSetupModal.mountedState
        [UbuntuSetupModal.ModalEvent.installationStage "NotStarted"]).currentStage
      = "NotStarted" := by
  constructor
  · decide
  · rfl

/-- Claim C4 (amended): for every sequence of events none of whose
`installation-stage` payloads is `NotStarted`, the modal's stage never
returns to `NotStarted` once it differs from it. -/
theorem c4_no_regression_without_notStarted_payload
    (s : UbuntuSetupModal.ModalState) (evts : List UbuntuSetupModal.ModalEvent)
    (hpayload : UbuntuSetupModal.hasNotStartedPayload evts = false)
    (hleft : s.currentStage ≠ "NotStarted") :
    (UbuntuSetupModal.processEvents s evts).currentStage ≠ "NotStarted" := by
  induction evts generalizing s with
  | nil => exact hleft
  | cons e t ih =>
    have hp : UbuntuSetupModal.hasNotStartedPayload t = false := by
      simp [UbuntuSetupModal.hasNotStartedPayload] at hpayload ⊢
      intro x hx
      exact hpayload.2 x hx
    unfold UbuntuSetupModal.processEvents at ih ⊢
    rw [List.foldl_cons]
    apply ih _ hp
    cases e with
    | sudoPasswordRequest req =>
      cases req with
      | some id =>
        rw [UbuntuSetupModal.handleEvent, watch_currentStage]
        simp
      | none => exact hleft
    | installationStage st =>
      have hst : st ≠ "NotStarted" := by
        simp [UbuntuSetupModal.hasNotStartedPayload] at hpayload
        simpa using hpayload.1
      rw [UbuntuSetupModal.handleEvent, watch_currentStage]
      dsimp only
      split <;> exact hst
    | mysqlContainerLog m => exact hleft
    | dockerInstallLog m => exact hleft

/-- Claim C4 witness: the amended theorem applied to the mounted modal
processing one `CheckingDocker` stage event. -/
theorem c4_witness :
    (UbuntuSetupModal.processEvents UbuntuSetupModal.mountedState
      [UbuntuSetupModal.ModalEvent.installationStage "CheckingDocker"]).currentStage
    ≠ "NotStarted" :=
  c4_no_regression_without_notStarted_payload UbuntuSetupModal.mountedState
    [UbuntuSetupModal.ModalEvent.installationStage "CheckingDocker"]
    (by decide) (by decide)

/-- Claim C5 counterexample: strict two-run noninterference over
arbitrary secrets fails: the handler branches on whether the trimmed
password is empty, so the runs with secrets `hunter2` and the empty
string produce different error messages (the empty submission yields
`Please enter a password`, the non-empty one succeeds and clears it). -/
theorem c5_observables_depend_on_secret_emptiness_cx :
    (UbuntuSetupModal.handlePasswordSubmit
        { UbuntuSetupModal.mountedState with password := "hunter2" } "req-1" true).state.errorMessage
    ≠ (UbuntuSetupModal.handlePasswordSubmit
        { UbuntuSetupModal.mountedState with password := "" } "req-1" true).state.errorMessage := by
  decide

/-- Claim C5 (amended): the password never flows into the logs, the
error message or the stage: two `handlePasswordSubmit` runs whose
secrets agree on trimmed emptiness produce identical observables (error
message, stage, both logs, and the invocation list with the password
argument removed); the handler never touches either log array, each
invocation it performs is the single `respond_to_sudo_password_request`
call carrying the current request id, and at most one invocation
occurs. -/
theorem c5_password_noninterference
    (s : UbuntuSetupModal.ModalState) (p1 p2 reqId : String) (invokeOk : Bool)
    (hlow : jsTrim p1 = "" ↔ jsTrim p2 = "") :
    UbuntuSetupModal.submitObservables
        (UbuntuSetupModal.handlePasswordSubmit { s with password := p1 } reqId invokeOk)
      = UbuntuSetupModal.submitObservables
        (UbuntuSetupModal.handlePasswordSubmit { s with password := p2 } reqId invokeOk)
    ∧ (UbuntuSetupModal.handlePasswordSubmit { s with password := p1 } reqId
        invokeOk).state.mysqlContainerLogs = s.mysqlContainerLogs
    ∧ (UbuntuSetupModal.handlePasswordSubmit { s with password := p1 } reqId
        invokeOk).state.dockerInstallLogs = s.dockerInstallLogs
    ∧ (∀ inv ∈ (UbuntuSetupModal.handlePasswordSubmit { s with password := p1 } reqId
        invokeOk).invocations,
        inv.1 = "respond_to_sudo_password_request" ∧ inv.2.1 = reqId)
    ∧ (UbuntuSetupModal.handlePasswordSubmit { s with password := p1 } reqId
        invokeOk).invocations.length ≤ 1 := by
  by_cases h1 : jsTrim p1 = ""
  · have h2 : jsTrim p2 = "" := hlow.mp h1
    simp [UbuntuSetupModal.handlePasswordSubmit, h1, h2, UbuntuSetupModal.submitObservables]
  · have h2 : ¬ jsTrim p2 = "" := fun hh => h1 (hlow.mpr hh)
    by_cases hr : reqId = ""
    · simp [UbuntuSetupModal.handlePasswordSubmit, h1, h2, hr,
        UbuntuSetupModal.submitObservables]
    · cases invokeOk with
      | true =>
        simp [UbuntuSetupModal.handlePasswordSubmit, h1, h2, hr,
          UbuntuSetupModal.submitObservables, UbuntuSetupModal.applyStageWatch]
        split_ifs <;> simp
      | false =>
        simp [UbuntuSetupModal.handlePasswordSubmit, h1, h2, hr,
          UbuntuSetupModal.submitObservables]

/-- Claim C5 witness: the amended theorem applied to two concrete
non-empty secrets. -/
theorem c5_witness :
    UbuntuSetupModal.submitObservables
        (UbuntuSetupModal.handlePasswordSubmit
          { UbuntuSetupModal.mountedState with password := "alpha" } "req-1" true)
      = UbuntuSetupModal.submitObservables
        (UbuntuSetupModal.handlePasswordSubmit
          { UbuntuSetupModal.mountedState with password := "beta" } "req-1" true) :=
  (c5_password_noninterference UbuntuSetupModal.mountedState "alpha" "beta" "req-1" true
    (by decide)).1

/-- Claim C6: a credential submission without a matching outstanding
request never mutates session state.  Front end: when
`props.currentSudoPasswordRequestId` is empty, `handlePasswordSubmit`
performs no backend invocation, leaves `currentStage` and both logs
unchanged and only sets an error message.  Backend (modelled from the
spec, the Rust channel being absent from src/): a submission whose id
differs from the outstanding request's id fails with
`UnknownOrStaleRequest` and returns the session unchanged. -/
theorem c6_stale_submission_never_mutates :
    (∀ (s : UbuntuSetupModal.ModalState) (invokeOk : Bool),
      (UbuntuSetupModal.handlePasswordSubmit s "" invokeOk).invocations = []
      ∧ (UbuntuSetupModal.handlePasswordSubmit s "" invokeOk).state.currentStage
          = s.currentStage
      ∧ (UbuntuSetupModal.handlePasswordSubmit s "" invokeOk).state.mysqlContainerLogs
          = s.mysqlContainerLogs
      ∧ (UbuntuSetupModal.handlePasswordSubmit s "" invokeOk).state.dockerInstallLogs
          = s.dockerInstallLogs
      ∧ ((UbuntuSetupModal.handlePasswordSubmit s "" invokeOk).state.errorMessage
            = "No active password request. Please retry."
         ∨ (UbuntuSetupModal.handlePasswordSubmit s "" invokeOk).state.errorMessage
            = "Please enter a password"))
    ∧ (∀ (sess : Backend.SetupSession) (req : Backend.PrivilegeRequest)
        (requestId secret : String),
        sess.outstanding = some req → req.id ≠ requestId →
        Backend.submit_credential sess requestId secret
          = (Except.error Backend.ChannelError.UnknownOrStaleRequest, sess)) := by
  constructor
  · intro s invokeOk
    by_cases h : jsTrim s.password = "" <;>
      simp [UbuntuSetupModal.handlePasswordSubmit, h]
  · intro sess req requestId secret hout hne
    unfold Backend.submit_credential
    rw [hout]
    simp [hne]

/-- Claim C6 witness: both parts of the theorem applied at concrete
inputs: a submission with no outstanding request id, and a backend
submission whose id differs from the outstanding one. -/
theorem c6_witness :
    (UbuntuSetupModal.handlePasswordSubmit
        { UbuntuSetupModal.mountedState with password := "pw" } "" true).invocations = []
    ∧ Backend.submit_credential
        { stage := "DockerInstalling", runtimeInstallLog := [], containerLog := [],
          lastError := none,
          outstanding := some { id := "req-1", createdAt := 0, resolved := false } }
        "req-2" "pw"
      = (Except.error Backend.ChannelError.UnknownOrStaleRequest,
         { stage := "DockerInstalling", runtimeInstallLog := [], containerLog := [],
           lastError := none,
           outstanding := some { id := "req-1", createdAt := 0, resolved := false } }) :=
  ⟨(c6_stale_submission_never_mutates.1
      { UbuntuSetupModal.mountedState with password := "pw" } true).1,
   c6_stale_submission_never_mutates.2
      { stage := "DockerInstalling", runtimeInstallLog := [], containerLog := [],
        lastError := none,
        outstanding := some { id := "req-1", createdAt := 0, resolved := false } }
      { id := "req-1", createdAt := 0, resolved := false } "req-2" "pw" rfl (by decide)⟩

/-- Claim C7: each log listener appends exactly one entry at the end of
its own log array, leaves the other log untouched, and the prior array
is a prefix of the new one — for the Ubuntu modal's
`mysql-container-log` and `docker-install-log` listeners and for the
Windows modal's `docker-install-log` listener. -/
theorem c7_logs_append_only :
    ∀ (s : UbuntuSetupModal.ModalState) (w : WindowsSetupModal.ModalState) (m : String),
      ((UbuntuSetupModal.handleEvent s (.mysqlContainerLog m)).mysqlContainerLogs
          = s.mysqlContainerLogs ++ [m]
       ∧ s.mysqlContainerLogs
          <+: (UbuntuSetupModal.handleEvent s (.mysqlContainerLog m)).mysqlContainerLogs
       ∧ (UbuntuSetupModal.handleEvent s (.mysqlContainerLog m)).dockerInstallLogs
          = s.dockerInstallLogs)
      ∧ ((UbuntuSetupModal.handleEvent s (.dockerInstallLog m)).dockerInstallLogs
          = s.dockerInstallLogs ++ [m]
       ∧ s.dockerInstallLogs
          <+: (UbuntuSetupModal.handleEvent s (.dockerInstallLog m)).dockerInstallLogs
       ∧ (UbuntuSetupModal.handleEvent s (.dockerInstallLog m)).mysqlContainerLogs
          = s.mysqlContainerLogs)
      ∧ ((WindowsSetupModal.handleEvent w (.dockerInstallLog m)).dockerLogs
          = w.dockerLogs ++ [m]
       ∧ w.dockerLogs <+: (WindowsSetupModal.handleEvent w (.dockerInstallLog m)).dockerLogs) :=
  fun s w m =>
    ⟨⟨rfl, ⟨[m], rfl⟩, rfl⟩, ⟨rfl, ⟨[m], rfl⟩, rfl⟩, rfl, ⟨[m], rfl⟩⟩

/-- Claim C8 (modelled from the spec, the Rust orchestrator being absent
from src/): a second start request while a setup session is active fails
with `SetupAlreadyInProgress` and causes no state change. -/
theorem c8_second_start_rejected (o : Backend.Orchestrator) (h : o.active = true) :
    Backend.start_setup o
      = (Except.error Backend.OrchestratorError.SetupAlreadyInProgress, o) := by
  unfold Backend.start_setup
  simp [h]

/-- Claim C8 witness: the theorem applied to a concrete orchestrator
with an active session. -/
theorem c8_witness :
    Backend.start_setup
      { active := true,
        session := { stage := "DockerInstalling", runtimeInstallLog := [], containerLog := [],
                     lastError := none, outstanding := none } }
      = (Except.error Backend.OrchestratorError.SetupAlreadyInProgress,
         { active := true,
           session := { stage := "DockerInstalling", runtimeInstallLog := [], containerLog := [],
                        lastError := none, outstanding := none } }) :=
  c8_second_start_rejected _ rfl

/-- Claim C9 counterexample: the claim quantifies over every stage tag
absent from the Windows ten-entry list, but `PreparingMySQLContainer` is
absent from that list while present in the earlier Ubuntu variant's own
list, where its guard yields 62.5, not 0. -/
theorem c9_ubuntu_guard_not_zero_cx :
    "PreparingMySQLContainer" ∉ WindowsSetupModal.stages
    ∧ LegacyUbuntuSetupModal.calculateProgress "PreparingMySQLContainer" ≠ 0 := by
  constructor
  · decide
  · rw [legacy_calc_preparing]
    norm_num

/-- Claim C9 (amended): for every stage tag absent from the Windows
modal's ten-entry progress list — in particular `DockerInstallFailed`,
`MySQLSetupFailed` and any unrecognized payload — the Windows
`calculateProgress` returns `Math.round((-1/9)*100) = -11`; and whenever
the tag is also absent from the earlier Ubuntu variant's nine-entry
list, that variant's guard (`index > 0`) returns 0. -/
theorem c9_absent_stage_progress_values (stage : String)
    (h : stage ∉ WindowsSetupModal.stages) :
    WindowsSetupModal.calculateProgress stage = -11
    ∧ (stage ∉ LegacyUbuntuSetupModal.stages →
        LegacyUbuntuSetupModal.calculateProgress stage = 0) := by
  constructor
  · unfold WindowsSetupModal.calculateProgress
    rw [jsIndexOf_eq_neg_one _ _ h]
    exact jsRound_eq_of _ _ (by norm_num [WindowsSetupModal.stages])
      (by norm_num [WindowsSetupModal.stages])
  · intro h2
    unfold LegacyUbuntuSetupModal.calculateProgress
    rw [jsIndexOf_eq_neg_one _ _ h2]
    norm_num

/-- Claim C9 witness: the amended theorem applied to `MySQLSetupFailed`,
which is absent from both progress lists. -/
theorem c9_witness :
    WindowsSetupModal.calculateProgress "MySQLSetupFailed" = -11
    ∧ LegacyUbuntuSetupModal.calculateProgress "MySQLSetupFailed" = 0 :=
  ⟨(c9_absent_stage_progress_values "MySQLSetupFailed" (by decide)).1,
   (c9_absent_stage_progress_values "MySQLSetupFailed" (by decide)).2 (by decide)⟩

/-- Claim C10: submitting an empty or whitespace-only password is
rejected locally: no backend invocation occurs, `currentStage` and both
log arrays are unchanged, and the error message is set to
`Please enter a password`. -/
theorem c10_empty_password_rejected_locally
    (s : UbuntuSetupModal.ModalState) (reqId : String) (invokeOk : Bool)
    (h : jsTrim s.password = "") :
    (UbuntuSetupModal.handlePasswordSubmit s reqId invokeOk).invocations = []
    ∧ (UbuntuSetupModal.handlePasswordSubmit s reqId invokeOk).state.currentStage
        = s.currentStage
    ∧ (UbuntuSetupModal.handlePasswordSubmit s reqId invokeOk).state.errorMessage
        = "Please enter a password"
    ∧ (UbuntuSetupModal.handlePasswordSubmit s reqId invokeOk).state.mysqlContainerLogs
        = s.mysqlContainerLogs
    ∧ (UbuntuSetupModal.handlePasswordSubmit s reqId invokeOk).state.dockerInstallLogs
        = s.dockerInstallLogs := by
  simp [UbuntuSetupModal.handlePasswordSubmit, h]

/-- Claim C10 witness: the theorem applied to a whitespace-only
password. -/
theorem c10_witness :
    (UbuntuSetupModal.handlePasswordSubmit
        { UbuntuSetupModal.mountedState with password := "   " } "req-1" true).invocations = []
    ∧ (UbuntuSetupModal.handlePasswordSubmit
        { UbuntuSetupModal.mountedState with password := "   " } "req-1" true).state.errorMessage
        = "Please enter a password" := by
  have h := c10_empty_password_rejected_locally
    { UbuntuSetupModal.mountedState with password := "   " } "req-1" true (by decide)
  exact ⟨h.1, h.2.2.1⟩
